import Mathlib

/-!
Shallow embedding of the Exolix fixed-rate swap plugin
(`src/swap/central/exolix.ts`): the JSON shape validators built from the
`cleaners` combinators, the remote `call` helper with its status-422
special case, the quote negotiation in `getFixedQuote`, and the
pre-network checks in `fetchSwapQuote`.

Helpers imported from `../../util/swapHelpers` and `../../util/utils`
(`checkInvalidCodes`, `checkWhitelistedMainnetCodes`,
`getCodesWithTranscription`, `getMaxSwappable`, `memoType`, `getAddress`,
`convertRequest`) are not part of this repository snapshot; where a claim
depends on them they are modelled from the spec and marked as such.
-/

namespace Exolix

/-- JSON values as delivered by `response.json()`.  Numbers are modelled
as rationals (the decimal values the remote service exchanges). -/
inductive JValue where
  | null : JValue
  | bool (b : Bool) : JValue
  | num (q : ℚ) : JValue
  | str (s : String) : JValue
  | arr (elems : List JValue) : JValue
  | obj (fields : List (String × JValue)) : JValue

/-- Property access on a JS object: the first binding of the key, or
`none` (JS `undefined`) when the key is absent. -/
def lookupField : List (String × JValue) → String → Option JValue
  | [], _ => none
  | (k, v) :: rest, key => if k = key then some v else lookupField rest key

/-- `asNumber` from the cleaners library: succeeds exactly on a number. -/
def cleanNumber : Option JValue → Option ℚ
  | some (JValue.num q) => some q
  | _ => none

/-- `asString` from the cleaners library: succeeds exactly on a string. -/
def cleanString : Option JValue → Option String
  | some (JValue.str s) => some s
  | _ => none

/-- `asOptional(asNumber, fallback)`: `undefined` or `null` yield the
fallback, otherwise the value must be a number. -/
def cleanOptionalNumber (fallback : ℚ) : Option JValue → Option ℚ
  | none => some fallback
  | some JValue.null => some fallback
  | some (JValue.num q) => some q
  | _ => none

/-- `asOptional(asString)`: `undefined` or `null` yield `undefined`
(modelled `none`), otherwise the value must be a string. -/
def cleanOptionalString : Option JValue → Option (Option String)
  | none => some none
  | some JValue.null => some none
  | some (JValue.str s) => some (some s)
  | _ => none

/-- `asEither(asString, asNull)` for the `message` field: a string or
`null` (modelled `none`); anything else (including a missing field)
fails. -/
def cleanMessage : Option JValue → Option (Option String)
  | some (JValue.str s) => some (some s)
  | some JValue.null => some none
  | _ => none

/-- The parsed shape of the remote `rate` response (`asRateResponse`). -/
structure RateResponse where
  minAmount : ℚ
  withdrawMin : ℚ
  fromAmount : ℚ
  toAmount : ℚ
  message : Option String
deriving DecidableEq, Repr

/-- `asRateResponse`: `asObject({minAmount: asNumber, withdrawMin:
asOptional(asNumber, 0), fromAmount: asNumber, toAmount: asNumber,
message: asEither(asString, asNull)})`. -/
def asRateResponse : JValue → Option RateResponse
  | JValue.obj fields => do
    let minAmount ← cleanNumber (lookupField fields "minAmount")
    let withdrawMin ← cleanOptionalNumber 0 (lookupField fields "withdrawMin")
    let fromAmount ← cleanNumber (lookupField fields "fromAmount")
    let toAmount ← cleanNumber (lookupField fields "toAmount")
    let message ← cleanMessage (lookupField fields "message")
    pure ⟨minAmount, withdrawMin, fromAmount, toAmount, message⟩
  | _ => none

/-- The parsed shape of the remote `createTransaction` response
(`asQuoteInfo`). -/
structure QuoteInfo where
  id : String
  amount : ℚ
  amountTo : ℚ
  depositAddress : String
  depositExtraId : Option String
deriving DecidableEq, Repr

/-- `asQuoteInfo`: `asObject({id: asString, amount: asNumber, amountTo:
asNumber, depositAddress: asString, depositExtraId:
asOptional(asString)})`. -/
def asQuoteInfo : JValue → Option QuoteInfo
  | JValue.obj fields => do
    let id ← cleanString (lookupField fields "id")
    let amount ← cleanNumber (lookupField fields "amount")
    let amountTo ← cleanNumber (lookupField fields "amountTo")
    let depositAddress ← cleanString (lookupField fields "depositAddress")
    let depositExtraId ← cleanOptionalString (lookupField fields "depositExtraId")
    pure ⟨id, amount, amountTo, depositAddress, depositExtraId⟩
  | _ => none

/-- An `EdgeFetchResponse` as the `call` helper observes it. -/
structure FetchResponse where
  ok : Bool
  status : ℕ
  body : JValue

/-- Result of the inner `call` helper: the returned JSON body, a thrown
`SwapCurrencyError`, or a thrown `Error` carrying the HTTP status. -/
inductive CallResult where
  | success (body : JValue)
  | currencyError
  | httpError (status : ℕ)

/-- The `call` helper of `getFixedQuote`: on `response.ok` return the
body; on status 422 return the body if it parses as a rate response
(Exolix signals an under-minimum `from` quote this way), else throw
`SwapCurrencyError`; on any other non-ok status throw an `Error`
carrying the status code. -/
def callModel (response : FetchResponse) : CallResult :=
  if response.ok then CallResult.success response.body
  else if response.status = 422 then
    match asRateResponse response.body with
    | some _ => CallResult.success response.body
    | none => CallResult.currencyError
  else CallResult.httpError response.status

/-- The `quoteFor` direction of a swap request. -/
inductive Direction where
  | fromSide
  | toSide
deriving DecidableEq, Repr

/-- The wallet collaborator as the negotiator consumes it: its chain
`currencyInfo.pluginId`, its wallet `id`, and the two unit-conversion
operations.  Native amounts are natural numbers (the integer-string
amounts compared by biggystring `lt`); denominated amounts are
rationals. -/
structure Wallet where
  pluginId : String
  walletId : String
  nativeToDenomination : ℕ → String → ℚ
  denominationToNative : ℚ → String → ℕ

/-- The fields of an `EdgeSwapRequestPlugin` the negotiator reads. -/
structure SwapRequestP where
  quoteFor : Direction
  nativeAmount : ℕ
  fromCurrencyCode : String
  toCurrencyCode : String
  fromTokenId : Option String
  toTokenId : Option String
deriving DecidableEq, Repr

/-- The negotiation's ambient collaborators: the two wallets, the
resolved deposit/refund addresses (`getAddress`), the `memoType` utility
(modelled from the spec: `memoType` maps a chain pluginId to that
chain's memo format and is not part of this snapshot), and the
`Date.now()` sample taken when the order is assembled. -/
structure Env where
  fromWallet : Wallet
  toWallet : Wallet
  fromAddress : String
  toAddress : String
  memoTypeF : String → String
  now : ℕ

/-- `MAINNET_CODE_TRANSCRIPTION`: the static chain → Exolix network-code
table. -/
def MAINNET_CODE_TRANSCRIPTION : List (String × String) :=
  [("algorand", "ALGO"), ("arbitrum", "ARBITRUM"), ("avalanche", "AVAXC"),
   ("binancesmartchain", "BSC"), ("bitcoin", "BTC"), ("bitcoincash", "BCH"),
   ("cardano", "ADA"), ("celo", "CELO"), ("cosmoshub", "ATOM"),
   ("dash", "DASH"), ("digibyte", "DGB"), ("dogecoin", "DOGE"),
   ("eos", "EOS"), ("ethereum", "ETH"), ("ethereumclassic", "ETC"),
   ("fantom", "FTM"), ("filecoin", "FIL"), ("hedera", "HBAR"),
   ("litecoin", "LTC"), ("monero", "XMR"), ("optimism", "OPTIMISM"),
   ("osmosis", "OSMO"), ("polkadot", "DOT"), ("qtum", "QTUM"),
   ("ravencoin", "RVN"), ("ripple", "XRP"), ("solana", "SOL"),
   ("stellar", "XLM"), ("telos", "TELOS"), ("tezos", "XTZ"),
   ("thorchainrune", "RUNE"), ("tron", "TRX"), ("zcash", "ZEC")]

/-- `INVALID_CURRENCY_CODES`: the per-direction blacklist of
(chain pluginId, currency code) pairs; `from` is empty, `to` blacklists
ZEC on zcash. -/
def INVALID_CURRENCY_CODES_from : List (String × List String) := []

/-- The `to` half of `INVALID_CURRENCY_CODES`. -/
def INVALID_CURRENCY_CODES_to : List (String × List String) :=
  [("zcash", ["ZEC"])]

/-- Association-list lookup for the static string tables. -/
def tableLookup : List (String × α) → String → Option α
  | [], _ => none
  | (k, v) :: rest, key => if k = key then some v else tableLookup rest key

/-- Modelled from the spec: `getCodesWithTranscription` transcribes each
leg's wallet chain identifier through the static table (`transcribe`);
the currency codes pass through unchanged.  The helper lives in
`util/swapHelpers`, outside this snapshot.  By the time the negotiator
runs, the whitelist check has ensured both chains are in the table, so
the fallback to the raw pluginId is never observed. -/
def getCodesWithTranscription (env : Env) (request : SwapRequestP) :
    String × String × String × String :=
  (request.fromCurrencyCode, request.toCurrencyCode,
   (tableLookup MAINNET_CODE_TRANSCRIPTION env.fromWallet.pluginId).getD
     env.fromWallet.pluginId,
   (tableLookup MAINNET_CODE_TRANSCRIPTION env.toWallet.pluginId).getD
     env.toWallet.pluginId)

/-- The query parameters of the `rate` call (`quoteParams`).
`withdrawalAmount` is `none` when the parameter is not sent. -/
structure QuoteParams where
  coinFrom : String
  coinFromNetwork : String
  coinTo : String
  coinToNetwork : String
  amount : ℚ
  rateType : String
  withdrawalAmount : Option ℚ
deriving DecidableEq, Repr

/-- The body of the `transactions` call (`exchangeParams`). -/
structure ExchangeParams where
  coinFrom : String
  networkFrom : String
  coinTo : String
  networkTo : String
  amount : ℚ
  withdrawalAddress : String
  withdrawalExtraId : String
  refundAddress : String
  refundExtraId : String
  rateType : String
  withdrawalAmount : Option ℚ
deriving DecidableEq, Repr

/-- Builds `quoteParams`: `amount` is always sent; `withdrawalAmount`
is added only for a `to` quote. -/
def mkQuoteParams (request : SwapRequestP) (env : Env) (quoteAmount : ℚ) :
    QuoteParams :=
  let codes := getCodesWithTranscription env request
  { coinFrom := codes.1
    coinFromNetwork := codes.2.2.1
    coinTo := codes.2.1
    coinToNetwork := codes.2.2.2
    amount := quoteAmount
    rateType := "fixed"
    withdrawalAmount :=
      if request.quoteFor = Direction.toSide then some quoteAmount else none }

/-- Builds `exchangeParams`: the transcribed codes, the decimal amount,
the resolved addresses, unconditionally `rateType = "fixed"` and empty
extra-id fields; `withdrawalAmount` is added only for a `to` quote. -/
def mkExchangeParams (request : SwapRequestP) (env : Env) (quoteAmount : ℚ) :
    ExchangeParams :=
  let codes := getCodesWithTranscription env request
  { coinFrom := codes.1
    networkFrom := codes.2.2.1
    coinTo := codes.2.1
    networkTo := codes.2.2.2
    amount := quoteAmount
    withdrawalAddress := env.toAddress
    withdrawalExtraId := ""
    refundAddress := env.fromAddress
    refundExtraId := ""
    rateType := "fixed"
    withdrawalAmount :=
      if request.quoteFor = Direction.toSide then some quoteAmount else none }

/-- An `EdgeMemo` of the spend plan. -/
structure EdgeMemoP where
  type : String
  value : String
deriving DecidableEq, Repr

/-- One spend target of the spend plan. -/
structure SpendTarget where
  nativeAmount : ℕ
  publicAddress : String
deriving DecidableEq, Repr

/-- One leg of the `savedAction` provenance metadata. -/
structure AssetAmount where
  pluginId : String
  tokenId : Option String
  nativeAmount : ℕ
deriving DecidableEq, Repr

/-- The `savedAction` provenance block of the spend plan. -/
structure SavedAction where
  orderId : String
  orderUri : String
  isEstimate : Bool
  toAsset : AssetAmount
  fromAsset : AssetAmount
  payoutAddress : String
  payoutWalletId : String
  refundAddress : String
deriving DecidableEq, Repr

/-- The assembled `EdgeSpendInfo`. -/
structure SpendInfoP where
  tokenId : Option String
  spendTargets : List SpendTarget
  memos : List EdgeMemoP
  networkFeeOption : String
  savedAction : SavedAction
deriving DecidableEq, Repr

/-- The `SwapOrder` returned by `getFixedQuote`. -/
structure SwapOrderP where
  request : SwapRequestP
  spendInfo : SpendInfoP
  fromNativeAmount : ℕ
  expirationDate : ℕ
deriving DecidableEq, Repr

/-- `orderUri` prefix for the human-facing tracking URL. -/
def orderUri : String := "https://exolix.com/transaction/"

/-- `expirationMs`: sixty seconds, in milliseconds. -/
def expirationMs : ℕ := 1000 * 60

/-- How a single run of `getFixedQuote` ends. -/
inductive QuoteOutcome where
  | order (o : SwapOrderP)
  | belowLimit (nativeMin : ℕ) (direction : Direction)
  | currencyError
  | httpError (status : ℕ)
  | parseError
deriving DecidableEq, Repr

/-- Observable behaviour of one `getFixedQuote` run: the outcome, the
parameters of the `rate` call it issued, and the parameters of the
`transactions` (createTransaction) call when one was issued. -/
structure NegotiationResult where
  outcome : QuoteOutcome
  rateParams : QuoteParams
  txParams : Option ExchangeParams
deriving DecidableEq, Repr

/-- Lines 281–343 of `getFixedQuote`: convert the bound order's amounts
to native units, build the optional memo, the spend plan and the final
`SwapOrder`. -/
def assembleOrder (env : Env) (request : SwapRequestP) (quoteInfo : QuoteInfo) :
    SwapOrderP :=
  let fromNativeAmount :=
    env.fromWallet.denominationToNative quoteInfo.amount request.fromCurrencyCode
  let toNativeAmount :=
    env.toWallet.denominationToNative quoteInfo.amountTo request.toCurrencyCode
  let memos : List EdgeMemoP :=
    match quoteInfo.depositExtraId with
    | none => []
    | some extraId =>
      [{ type := env.memoTypeF env.fromWallet.pluginId, value := extraId }]
  { request := request
    spendInfo :=
      { tokenId := request.fromTokenId
        spendTargets :=
          [{ nativeAmount := fromNativeAmount
             publicAddress := quoteInfo.depositAddress }]
        memos := memos
        networkFeeOption :=
          if request.fromCurrencyCode.toUpper = "BTC" then "high"
          else "standard"
        savedAction :=
          { orderId := quoteInfo.id
            orderUri := orderUri ++ quoteInfo.id
            isEstimate := false
            toAsset :=
              { pluginId := env.toWallet.pluginId
                tokenId := request.toTokenId
                nativeAmount := toNativeAmount }
            fromAsset :=
              { pluginId := env.fromWallet.pluginId
                tokenId := request.fromTokenId
                nativeAmount := fromNativeAmount }
            payoutAddress := env.toAddress
            payoutWalletId := env.toWallet.walletId
            refundAddress := env.fromAddress } }
    fromNativeAmount := fromNativeAmount
    expirationDate := env.now + expirationMs }

/-- Lines 259–343 of `getFixedQuote`: after the minimum check passes,
issue the `transactions` call with `exchangeParams`, validate the
response with `asQuoteInfo`, and assemble the order. -/
def finishOrder (env : Env) (request : SwapRequestP) (quoteAmount : ℚ)
    (rateParams : QuoteParams) (txFetch : FetchResponse) : NegotiationResult :=
  let exchangeParams := mkExchangeParams request env quoteAmount
  match callModel txFetch with
  | CallResult.currencyError =>
    ⟨QuoteOutcome.currencyError, rateParams, some exchangeParams⟩
  | CallResult.httpError s =>
    ⟨QuoteOutcome.httpError s, rateParams, some exchangeParams⟩
  | CallResult.success body =>
    match asQuoteInfo body with
    | none => ⟨QuoteOutcome.parseError, rateParams, some exchangeParams⟩
    | some quoteInfo =>
      ⟨QuoteOutcome.order (assembleOrder env request quoteInfo),
       rateParams, some exchangeParams⟩

/-- The `exchangeQuoteAmount` conversion of `getFixedQuote`: the
request's native amount converted to a decimal by the wallet owning the
quoted-direction asset. -/
def quoteDecimalAmount (env : Env) (request : SwapRequestP) : ℚ :=
  match request.quoteFor with
  | Direction.fromSide =>
    env.fromWallet.nativeToDenomination request.nativeAmount
      request.fromCurrencyCode
  | Direction.toSide =>
    env.toWallet.nativeToDenomination request.nativeAmount
      request.toCurrencyCode

/-- The native minimum the direction-matching limit check compares
against: `minAmount` converted via the from-wallet for a `from` quote,
`withdrawMin` converted via the to-wallet for a `to` quote. -/
def sideNativeMin (env : Env) (request : SwapRequestP)
    (rateResponse : RateResponse) : ℕ :=
  match request.quoteFor with
  | Direction.fromSide =>
    env.fromWallet.denominationToNative rateResponse.minAmount
      request.fromCurrencyCode
  | Direction.toSide =>
    env.toWallet.denominationToNative rateResponse.withdrawMin
      request.toCurrencyCode

/-- `getFixedQuote`: convert the request's native amount to a decimal
via the quoted-direction wallet, build `quoteParams`, issue the `rate`
call, validate with `asRateResponse`, run the direction-matching
minimum check (throwing `SwapBelowLimitError` when the native amount is
strictly below the converted native minimum), then bind the quote and
assemble the order.  The two remote responses are the oracle inputs
`rateFetch` and `txFetch`. -/
def getFixedQuote (env : Env) (request : SwapRequestP)
    (rateFetch txFetch : FetchResponse) : NegotiationResult :=
  let quoteAmount := quoteDecimalAmount env request
  let quoteParams := mkQuoteParams request env quoteAmount
  match callModel rateFetch with
  | CallResult.currencyError =>
    ⟨QuoteOutcome.currencyError, quoteParams, none⟩
  | CallResult.httpError s =>
    ⟨QuoteOutcome.httpError s, quoteParams, none⟩
  | CallResult.success body =>
    match asRateResponse body with
    | none => ⟨QuoteOutcome.parseError, quoteParams, none⟩
    | some rateResponse =>
      match request.quoteFor with
      | Direction.fromSide =>
        let nativeMin :=
          env.fromWallet.denominationToNative rateResponse.minAmount
            request.fromCurrencyCode
        if request.nativeAmount < nativeMin then
          ⟨QuoteOutcome.belowLimit nativeMin Direction.fromSide,
           quoteParams, none⟩
        else finishOrder env request quoteAmount quoteParams txFetch
      | Direction.toSide =>
        let nativeMin :=
          env.toWallet.denominationToNative rateResponse.withdrawMin
            request.toCurrencyCode
        if request.nativeAmount < nativeMin then
          ⟨QuoteOutcome.belowLimit nativeMin Direction.toSide,
           quoteParams, none⟩
        else finishOrder env request quoteAmount quoteParams txFetch

/-- Whether a (chain, currency code) pair is in a blacklist half. -/
def blacklistHit (table : List (String × List String))
    (chain code : String) : Bool :=
  match tableLookup table chain with
  | some codes => codes.contains code
  | none => false

/-- Modelled from the spec: `checkInvalidCodes` (in `util/swapHelpers`,
outside this snapshot) rejects a (chain, symbol) pair listed in the
per-direction blacklist; `true` means the request is rejected. -/
def checkInvalidCodes (env : Env) (request : SwapRequestP) : Bool :=
  blacklistHit INVALID_CURRENCY_CODES_from env.fromWallet.pluginId
    request.fromCurrencyCode ||
  blacklistHit INVALID_CURRENCY_CODES_to env.toWallet.pluginId
    request.toCurrencyCode

/-- Modelled from the spec: `checkWhitelistedMainnetCodes` (in
`util/swapHelpers`, outside this snapshot) requires both legs' chains
to be keys of the transcription table; `true` means both are present. -/
def checkWhitelistedMainnetCodes (env : Env) : Bool :=
  (tableLookup MAINNET_CODE_TRANSCRIPTION env.fromWallet.pluginId).isSome &&
  (tableLookup MAINNET_CODE_TRANSCRIPTION env.toWallet.pluginId).isSome

/-- How `fetchSwapQuote` ends, as the caller sees it. -/
inductive SwapOutcome where
  | quote (o : SwapOrderP)
  | currencyUnsupported
  | belowLimit (nativeMin : ℕ) (direction : Direction)
  | httpError (status : ℕ)
  | parseError
deriving DecidableEq, Repr

/-- Maps a negotiation outcome to the caller-visible outcome; the
`SwapCurrencyError` thrown inside `call` surfaces as the same
currency-unsupported error the pre-checks throw. -/
def toSwapOutcome : QuoteOutcome → SwapOutcome
  | QuoteOutcome.order o => SwapOutcome.quote o
  | QuoteOutcome.belowLimit n d => SwapOutcome.belowLimit n d
  | QuoteOutcome.currencyError => SwapOutcome.currencyUnsupported
  | QuoteOutcome.httpError s => SwapOutcome.httpError s
  | QuoteOutcome.parseError => SwapOutcome.parseError

/-- `fetchSwapQuote`: run `checkInvalidCodes` then
`checkWhitelistedMainnetCodes` before any network call, then negotiate.
The second component counts network fetches (the `rate` call, plus the
`transactions` call when issued).  Modelled from the spec:
`convertRequest` and `getMaxSwappable` are outside this snapshot; per
§6 they accept and return the same request shape, and are modelled as
the identity on the request. -/
def fetchSwapQuote (env : Env) (request : SwapRequestP)
    (rateFetch txFetch : FetchResponse) : SwapOutcome × ℕ :=
  if checkInvalidCodes env request then
    (SwapOutcome.currencyUnsupported, 0)
  else if ¬ checkWhitelistedMainnetCodes env then
    (SwapOutcome.currencyUnsupported, 0)
  else
    let result := getFixedQuote env request rateFetch txFetch
    (toSwapOutcome result.outcome,
     1 + (if result.txParams.isSome then 1 else 0))

/-! Concrete fixtures used to instantiate the theorems below. -/

/-- A from-side wallet with a unit (multiplier 1) denomination. -/
def testFromWallet : Wallet :=
  { pluginId := "bitcoin"
    walletId := "wallet-btc"
    nativeToDenomination := fun n _ => (n : ℚ)
    denominationToNative := fun q _ => q.num.toNat }

/-- A to-side wallet with a unit (multiplier 1) denomination. -/
def testToWallet : Wallet :=
  { pluginId := "ethereum"
    walletId := "wallet-eth"
    nativeToDenomination := fun n _ => (n : ℚ)
    denominationToNative := fun q _ => q.num.toNat }

/-- A concrete environment: both fixture wallets, resolved addresses, a
constant memo-type table and a fixed clock sample. -/
def testEnv : Env :=
  { fromWallet := testFromWallet
    toWallet := testToWallet
    fromAddress := "addr-refund"
    toAddress := "addr-payout"
    memoTypeF := fun _ => "hex"
    now := 1700000000000 }

/-- A from-direction request for 5 native units of BTC. -/
def testRequestFrom : SwapRequestP :=
  { quoteFor := Direction.fromSide
    nativeAmount := 5
    fromCurrencyCode := "BTC"
    toCurrencyCode := "ETH"
    fromTokenId := none
    toTokenId := none }

/-- A from-direction request for 50 native units of BTC, enough to
clear the minimum of 10. -/
def testRequestFrom50 : SwapRequestP :=
  { quoteFor := Direction.fromSide
    nativeAmount := 50
    fromCurrencyCode := "BTC"
    toCurrencyCode := "ETH"
    fromTokenId := none
    toTokenId := none }

/-- A to-direction request for 5 native units of ETH out. -/
def testRequestTo : SwapRequestP :=
  { quoteFor := Direction.toSide
    nativeAmount := 5
    fromCurrencyCode := "BTC"
    toCurrencyCode := "ETH"
    fromTokenId := none
    toTokenId := none }

/-- A rate body with `minAmount = 10`, no `withdrawMin`, and a null
message. -/
def rateBodyMin10 : JValue :=
  JValue.obj [("minAmount", JValue.num 10), ("fromAmount", JValue.num 5),
              ("toAmount", JValue.num 95), ("message", JValue.null)]

/-- `rateBodyMin10` with different quoted amounts and an informational
message instead of null: the fields the negotiator never reads. -/
def rateBodyMin10Msg : JValue :=
  JValue.obj [("minAmount", JValue.num 10), ("fromAmount", JValue.num 6),
              ("toAmount", JValue.num 94),
              ("message", JValue.str "Amount less than min")]

/-- The parsed form of `rateBodyMin10`. -/
def rateRespMin10 : RateResponse :=
  { minAmount := 10, withdrawMin := 0, fromAmount := 5, toAmount := 95
    message := none }

/-- A valid `transactions` body with a deposit extra id. -/
def txBodyOk : JValue :=
  JValue.obj [("id", JValue.str "order-1"), ("amount", JValue.num 5),
              ("amountTo", JValue.num 95),
              ("depositAddress", JValue.str "addr-deposit"),
              ("depositExtraId", JValue.str "tag-7")]

/-- A fetch response that is an opaque server failure. -/
def txFetchFail : FetchResponse := ⟨false, 500, JValue.null⟩

/-- The parsed form of `txBodyOk`. -/
def testQuoteInfo : QuoteInfo :=
  { id := "order-1"
    amount := 5
    amountTo := 95
    depositAddress := "addr-deposit"
    depositExtraId := some "tag-7" }

/-- A zcash to-wallet, used to exercise the blacklist. -/
def testZecWallet : Wallet :=
  { pluginId := "zcash"
    walletId := "wallet-zec"
    nativeToDenomination := fun n _ => (n : ℚ)
    denominationToNative := fun q _ => q.num.toNat }

/-- `testEnv` with the to-wallet on zcash. -/
def testEnvZec : Env := { testEnv with toWallet := testZecWallet }

/-- A request paying out ZEC, the blacklisted to-side symbol. -/
def testRequestZec : SwapRequestP :=
  { testRequestFrom with toCurrencyCode := "ZEC" }

end Exolix

namespace Exolix

/-- C1: when the `rate` call succeeds and its body parses, the
minimum-limit check uses the side matching `quoteFor` — `minAmount`
converted via the from-wallet and from-code for a `from` quote,
`withdrawMin` converted via the to-wallet and to-code for a `to` quote
— and if the request's native amount is strictly below that converted
native minimum, the negotiation ends with a below-limit error tagged
with that side and carrying that native minimum, and no
`createTransaction` call is issued. -/
theorem getFixedQuote_belowLimit_guard (env : Env) (request : SwapRequestP)
    (rateFetch txFetch : FetchResponse) (body : JValue) (rr : RateResponse)
    (hcall : callModel rateFetch = CallResult.success body)
    (hparse : asRateResponse body = some rr)
    (hlt : request.nativeAmount < sideNativeMin env request rr) :
    getFixedQuote env request rateFetch txFetch =
      ⟨QuoteOutcome.belowLimit (sideNativeMin env request rr) request.quoteFor,
        mkQuoteParams request env (quoteDecimalAmount env request), none⟩ := by
  unfold getFixedQuote
  simp only [hcall, hparse]
  cases hq : request.quoteFor with
  | fromSide =>
    simp only [sideNativeMin, hq] at hlt
    simp [sideNativeMin, hq, hlt]
  | toSide =>
    simp only [sideNativeMin, hq] at hlt
    simp [sideNativeMin, hq, hlt]

/-- Witness for C1: the spec's own example — `minAmount = 10`, a
from-direction request for native amount 5 — fails below-limit tagged
`from` with native minimum 10, and no `transactions` call is issued. -/
theorem getFixedQuote_belowLimit_guard_witness :
    testRequestFrom.nativeAmount <
        sideNativeMin testEnv testRequestFrom rateRespMin10 ∧
      getFixedQuote testEnv testRequestFrom ⟨true, 200, rateBodyMin10⟩
          txFetchFail =
        ⟨QuoteOutcome.belowLimit 10 Direction.fromSide,
          mkQuoteParams testRequestFrom testEnv
            (quoteDecimalAmount testEnv testRequestFrom), none⟩ :=
  ⟨by decide,
    getFixedQuote_belowLimit_guard testEnv testRequestFrom
      ⟨true, 200, rateBodyMin10⟩ txFetchFail rateBodyMin10 rateRespMin10
      rfl (by decide) (by decide)⟩

/-- C2 (counterexample): a non-success status other than 422 is never
inspected — with status 500 and a body that validates as a rate shape,
`call` raises the status-carrying error instead of returning the body,
so "every non-success HTTP status" is too broad. -/
theorem call_nonSuccess_validBody_not_returned :
    (asRateResponse rateBodyMin10).isSome = true ∧
      callModel ⟨false, 500, rateBodyMin10⟩ = CallResult.httpError 500 :=
  ⟨by decide, rfl⟩

/-- C2 (amended): for a response with transport success and HTTP status
exactly 422 whose body parses as a valid rate-quote shape, `call`
returns that body as a successful quote, and the negotiation continues
exactly as it would from a success-status response with the same body
(into the minimum-limit check). -/
theorem call_422_validBody_success (response : FetchResponse)
    (rr : RateResponse) (hok : response.ok = false)
    (hst : response.status = 422)
    (hparse : asRateResponse response.body = some rr) :
    callModel response = CallResult.success response.body ∧
      ∀ env request txFetch,
        getFixedQuote env request response txFetch =
          getFixedQuote env request ⟨true, 200, response.body⟩ txFetch := by
  have hc : callModel response = CallResult.success response.body := by
    simp [callModel, hok, hst, hparse]
  refine ⟨hc, ?_⟩
  intro env request txFetch
  unfold getFixedQuote
  rw [hc]
  rfl

/-- Witness for C2: a 422 response whose body is `rateBodyMin10` is
returned as a successful quote and negotiated like a 200 response. -/
theorem call_422_validBody_success_witness :
    callModel ⟨false, 422, rateBodyMin10⟩ =
        CallResult.success rateBodyMin10 ∧
      getFixedQuote testEnv testRequestFrom ⟨false, 422, rateBodyMin10⟩
          txFetchFail =
        getFixedQuote testEnv testRequestFrom ⟨true, 200, rateBodyMin10⟩
          txFetchFail :=
  ⟨(call_422_validBody_success ⟨false, 422, rateBodyMin10⟩ rateRespMin10
      rfl rfl (by decide)).1,
    (call_422_validBody_success ⟨false, 422, rateBodyMin10⟩ rateRespMin10
      rfl rfl (by decide)).2 testEnv testRequestFrom txFetchFail⟩

/-- C3 (counterexample): at status 422 a body that fails to validate is
answered with the `SwapCurrencyError` (currency-unsupported) path, not
an error carrying the HTTP status. -/
theorem call_422_invalidBody_currencyError :
    asRateResponse JValue.null = none ∧
      callModel ⟨false, 422, JValue.null⟩ = CallResult.currencyError ∧
      callModel ⟨false, 422, JValue.null⟩ ≠ CallResult.httpError 422 :=
  ⟨rfl, rfl, fun h => CallResult.noConfusion h⟩

/-- C3 (amended): for transport success with a non-success status other
than 422, `call` raises the error carrying that status without
inspecting the body; for status 422 with a body that fails to validate
as the rate shape, it raises the currency-unsupported error instead. -/
theorem call_nonSuccess_dispatch (response : FetchResponse)
    (hok : response.ok = false) :
    (response.status ≠ 422 →
      callModel response = CallResult.httpError response.status) ∧
      (response.status = 422 → asRateResponse response.body = none →
        callModel response = CallResult.currencyError) := by
  constructor
  · intro hne
    simp [callModel, hok, hne]
  · intro hst hbody
    simp [callModel, hok, hst, hbody]

/-- Witness for C3: a 500 response raises the error carrying status
500. -/
theorem call_nonSuccess_dispatch_witness :
    callModel ⟨false, 500, JValue.null⟩ = CallResult.httpError 500 :=
  (call_nonSuccess_dispatch ⟨false, 500, JValue.null⟩ rfl).1 (by decide)

/-- C4: the spend plan's memo list is empty when the bound order has no
`depositExtraId`, and is exactly one memo carrying that value — tagged
with the memo type of the chain the deposit address lives on (the
from-wallet's chain) — when it is present. -/
theorem assembleOrder_memo_roundtrip (env : Env) (request : SwapRequestP)
    (quoteInfo : QuoteInfo) :
    (quoteInfo.depositExtraId = none →
      (assembleOrder env request quoteInfo).spendInfo.memos = []) ∧
      ∀ extraId, quoteInfo.depositExtraId = some extraId →
        (assembleOrder env request quoteInfo).spendInfo.memos =
          [{ type := env.memoTypeF env.fromWallet.pluginId
             value := extraId }] := by
  constructor
  · intro h
    simp [assembleOrder, h]
  · intro extraId h
    simp [assembleOrder, h]

/-- Witness for C4: a bound order carrying extra id `tag-7` yields
exactly one memo with that value and the from-chain memo type. -/
theorem assembleOrder_memo_roundtrip_witness :
    testQuoteInfo.depositExtraId = some "tag-7" ∧
      (assembleOrder testEnv testRequestFrom testQuoteInfo).spendInfo.memos =
        [{ type := testEnv.memoTypeF testEnv.fromWallet.pluginId
           value := "tag-7" }] :=
  ⟨rfl,
    (assembleOrder_memo_roundtrip testEnv testRequestFrom testQuoteInfo).2
      "tag-7" rfl⟩

/-- C5: if either leg's chain is absent from the transcription table,
or either leg's (chain, symbol) pair is blacklisted, the request fails
with the currency-unsupported error and zero network fetches occur. -/
theorem fetchSwapQuote_precheck_rejects (env : Env) (request : SwapRequestP)
    (rateFetch txFetch : FetchResponse)
    (h : tableLookup MAINNET_CODE_TRANSCRIPTION env.fromWallet.pluginId
          = none ∨
        tableLookup MAINNET_CODE_TRANSCRIPTION env.toWallet.pluginId
          = none ∨
        blacklistHit INVALID_CURRENCY_CODES_from env.fromWallet.pluginId
          request.fromCurrencyCode = true ∨
        blacklistHit INVALID_CURRENCY_CODES_to env.toWallet.pluginId
          request.toCurrencyCode = true) :
    fetchSwapQuote env request rateFetch txFetch =
      (SwapOutcome.currencyUnsupported, 0) := by
  unfold fetchSwapQuote
  by_cases hinv : checkInvalidCodes env request = true
  · simp [hinv]
  · have hwl : checkWhitelistedMainnetCodes env = false := by
      rcases h with h | h | h | h
      · simp [checkWhitelistedMainnetCodes, h]
      · simp [checkWhitelistedMainnetCodes, h]
      · exact absurd (by simp [checkInvalidCodes, h]) hinv
      · exact absurd (by simp [checkInvalidCodes, h]) hinv
    simp [hinv, hwl]

/-- Witness for C5: sending to ZEC on zcash (a blacklisted pair) is
rejected up front with zero fetches, despite the valid opposite leg. -/
theorem fetchSwapQuote_precheck_rejects_witness :
    blacklistHit INVALID_CURRENCY_CODES_to testEnvZec.toWallet.pluginId
        testRequestZec.toCurrencyCode = true ∧
      fetchSwapQuote testEnvZec testRequestZec ⟨true, 200, rateBodyMin10⟩
          txFetchFail =
        (SwapOutcome.currencyUnsupported, 0) :=
  ⟨by decide,
    fetchSwapQuote_precheck_rejects testEnvZec testRequestZec
      ⟨true, 200, rateBodyMin10⟩ txFetchFail
      (Or.inr (Or.inr (Or.inr (by decide))))⟩

/-- Once the minimum check has passed, the `transactions` call is
always issued with the assembled `exchangeParams`. -/
lemma finishOrder_txParams (env : Env) (request : SwapRequestP)
    (quoteAmount : ℚ) (rateParams : QuoteParams)
    (txFetch : FetchResponse) :
    (finishOrder env request quoteAmount rateParams txFetch).txParams =
      some (mkExchangeParams request env quoteAmount) := by
  unfold finishOrder
  repeat' split
  all_goals rfl

/-- `finishOrder` reports the `rate` parameters it was handed. -/
lemma finishOrder_rateParams (env : Env) (request : SwapRequestP)
    (quoteAmount : ℚ) (rateParams : QuoteParams)
    (txFetch : FetchResponse) :
    (finishOrder env request quoteAmount rateParams txFetch).rateParams =
      rateParams := by
  unfold finishOrder
  repeat' split
  all_goals rfl

/-- Every run issues the `rate` call with `mkQuoteParams` built from
the direction-converted decimal amount. -/
lemma getFixedQuote_rateParams (env : Env) (request : SwapRequestP)
    (rateFetch txFetch : FetchResponse) :
    (getFixedQuote env request rateFetch txFetch).rateParams =
      mkQuoteParams request env (quoteDecimalAmount env request) := by
  simp only [getFixedQuote]
  repeat' split
  all_goals first
    | rfl
    | apply finishOrder_rateParams

/-- A run either issues no `transactions` call or issues it with the
assembled `exchangeParams`. -/
lemma getFixedQuote_txParams (env : Env) (request : SwapRequestP)
    (rateFetch txFetch : FetchResponse) :
    (getFixedQuote env request rateFetch txFetch).txParams = none ∨
      (getFixedQuote env request rateFetch txFetch).txParams =
        some (mkExchangeParams request env (quoteDecimalAmount env request)) := by
  simp only [getFixedQuote]
  repeat' split
  all_goals first
    | exact Or.inl rfl
    | exact Or.inr (by apply finishOrder_txParams)

/-- C6: the decimal amount is sent as `amount` (always) and tagged to
`withdrawalAmount` exactly for a `to`-direction quote, in both the
`rate` parameters and the `transactions` parameters; the `transactions`
parameters unconditionally carry `rateType = "fixed"` and empty
`withdrawalExtraId` and `refundExtraId` fields; and `getFixedQuote`
issues its calls with exactly these parameter records. -/
theorem params_direction_tagging (request : SwapRequestP) (env : Env)
    (quoteAmount : ℚ) (rateFetch txFetch : FetchResponse) :
    (mkQuoteParams request env quoteAmount).amount = quoteAmount ∧
      (mkExchangeParams request env quoteAmount).amount = quoteAmount ∧
      (request.quoteFor = Direction.fromSide →
        (mkQuoteParams request env quoteAmount).withdrawalAmount = none ∧
        (mkExchangeParams request env quoteAmount).withdrawalAmount = none) ∧
      (request.quoteFor = Direction.toSide →
        (mkQuoteParams request env quoteAmount).withdrawalAmount =
            some quoteAmount ∧
        (mkExchangeParams request env quoteAmount).withdrawalAmount =
            some quoteAmount) ∧
      (mkExchangeParams request env quoteAmount).rateType = "fixed" ∧
      (mkExchangeParams request env quoteAmount).withdrawalExtraId = "" ∧
      (mkExchangeParams request env quoteAmount).refundExtraId = "" ∧
      (getFixedQuote env request rateFetch txFetch).rateParams =
        mkQuoteParams request env (quoteDecimalAmount env request) ∧
      ((getFixedQuote env request rateFetch txFetch).txParams = none ∨
        (getFixedQuote env request rateFetch txFetch).txParams =
          some (mkExchangeParams request env
            (quoteDecimalAmount env request))) := by
  refine ⟨rfl, rfl, ?_, ?_, rfl, rfl, rfl,
    getFixedQuote_rateParams env request rateFetch txFetch,
    getFixedQuote_txParams env request rateFetch txFetch⟩
  · intro h
    constructor <;> simp [mkQuoteParams, mkExchangeParams, h]
  · intro h
    constructor <;> simp [mkQuoteParams, mkExchangeParams, h]

/-- Witness for C6: a `to`-direction request tags `withdrawalAmount`
in both parameter records. -/
theorem params_direction_tagging_witness :
    (mkQuoteParams testRequestTo testEnv 5).withdrawalAmount = some 5 ∧
      (mkExchangeParams testRequestTo testEnv 5).withdrawalAmount = some 5 :=
  (params_direction_tagging testRequestTo testEnv 5
      ⟨true, 200, rateBodyMin10⟩ txFetchFail).2.2.2.1 rfl

/-- When the `withdrawMin` key is absent, a successfully parsed rate
response carries the fallback value 0, per `asOptional(asNumber, 0)`. -/
lemma asRateResponse_missing_withdrawMin
    (fields : List (String × JValue)) (rr : RateResponse)
    (hmissing : lookupField fields "withdrawMin" = none)
    (hparse : asRateResponse (JValue.obj fields) = some rr) :
    rr.withdrawMin = 0 := by
  simp only [asRateResponse, hmissing, cleanOptionalNumber, Option.pure_def,
    Option.bind_eq_bind, Option.bind_eq_some, Option.some.injEq] at hparse
  obtain ⟨mn, hmn, wm, hwm, fa, hfa, ta, hta, msg, hmsg, hrr⟩ := hparse
  rw [← hrr]
  exact hwm.symm ▸ rfl

/-- C7: for a `to`-direction request whose rate body omits the
`withdrawMin` field, the parsed output-side minimum is 0; provided the
to-wallet converts the decimal 0 to the native 0, the below-limit check
then passes for every native request amount (a natural number) and the
negotiation proceeds to issue the `transactions` call. -/
theorem toQuote_missing_withdrawMin_proceeds (env : Env)
    (request : SwapRequestP) (rateFetch txFetch : FetchResponse)
    (fields : List (String × JValue)) (rr : RateResponse)
    (hdir : request.quoteFor = Direction.toSide)
    (hcall : callModel rateFetch = CallResult.success (JValue.obj fields))
    (hmissing : lookupField fields "withdrawMin" = none)
    (hparse : asRateResponse (JValue.obj fields) = some rr)
    (hzero : env.toWallet.denominationToNative 0 request.toCurrencyCode = 0) :
    rr.withdrawMin = 0 ∧
      (getFixedQuote env request rateFetch txFetch).txParams =
        some (mkExchangeParams request env (quoteDecimalAmount env request)) := by
  have hwm := asRateResponse_missing_withdrawMin fields rr hmissing hparse
  refine ⟨hwm, ?_⟩
  unfold getFixedQuote
  simp only [hcall, hparse, hdir, hwm, hzero, Nat.not_lt_zero, if_false]
  apply finishOrder_txParams

/-- Witness for C7: `rateBodyMin10` has no `withdrawMin`; the
to-direction request for 5 native units passes the check and the
`transactions` call is issued. -/
theorem toQuote_missing_withdrawMin_proceeds_witness :
    rateRespMin10.withdrawMin = 0 ∧
      (getFixedQuote testEnv testRequestTo ⟨true, 200, rateBodyMin10⟩
          txFetchFail).txParams =
        some (mkExchangeParams testRequestTo testEnv
          (quoteDecimalAmount testEnv testRequestTo)) :=
  toQuote_missing_withdrawMin_proceeds testEnv testRequestTo
    ⟨true, 200, rateBodyMin10⟩ txFetchFail
    [("minAmount", JValue.num 10), ("fromAmount", JValue.num 5),
     ("toAmount", JValue.num 95), ("message", JValue.null)]
    rateRespMin10 rfl rfl rfl (by decide) (by decide)

/-- Every order produced by `finishOrder` is `assembleOrder` applied to
some parsed `transactions` response. -/
lemma finishOrder_order_shape (env : Env) (request : SwapRequestP)
    (quoteAmount : ℚ) (rateParams : QuoteParams) (txFetch : FetchResponse)
    (o : SwapOrderP)
    (h : (finishOrder env request quoteAmount rateParams txFetch).outcome =
      QuoteOutcome.order o) :
    ∃ quoteInfo, o = assembleOrder env request quoteInfo := by
  unfold finishOrder at h
  split at h
  · exact absurd h (by simp)
  · exact absurd h (by simp)
  · split at h
    · exact absurd h (by simp)
    · next quoteInfo _ =>
      refine ⟨quoteInfo, ?_⟩
      simpa using h.symm

/-- Every order produced by `getFixedQuote` is `assembleOrder` applied
to some parsed `transactions` response. -/
lemma getFixedQuote_order_shape (env : Env) (request : SwapRequestP)
    (rateFetch txFetch : FetchResponse) (o : SwapOrderP)
    (h : (getFixedQuote env request rateFetch txFetch).outcome =
      QuoteOutcome.order o) :
    ∃ quoteInfo, o = assembleOrder env request quoteInfo := by
  simp only [getFixedQuote] at h
  split at h
  · exact absurd h (by simp)
  · exact absurd h (by simp)
  · split at h
    · exact absurd h (by simp)
    · split at h
      · split at h
        · exact absurd h (by simp)
        · exact finishOrder_order_shape _ _ _ _ _ _ h
      · split at h
        · exact absurd h (by simp)
        · exact finishOrder_order_shape _ _ _ _ _ _ h

/-- C8: every successfully assembled order expires exactly
`expirationMs` (60 seconds) after the `Date.now()` sample taken at
order construction, whatever the direction, the earlier wallet calls,
or anything the remote reported. -/
theorem order_expiration_60s (env : Env) (request : SwapRequestP)
    (rateFetch txFetch : FetchResponse) (o : SwapOrderP)
    (h : (getFixedQuote env request rateFetch txFetch).outcome =
      QuoteOutcome.order o) :
    o.expirationDate = env.now + expirationMs := by
  obtain ⟨quoteInfo, rfl⟩ :=
    getFixedQuote_order_shape env request rateFetch txFetch o h
  rfl

/-- Witness for C8: a complete successful negotiation yields an order
expiring at `now + 60000`. -/
theorem order_expiration_60s_witness :
    (getFixedQuote testEnv testRequestFrom50 ⟨true, 200, rateBodyMin10⟩
          ⟨true, 200, txBodyOk⟩).outcome =
        QuoteOutcome.order
          (assembleOrder testEnv testRequestFrom50 testQuoteInfo) ∧
      (assembleOrder testEnv testRequestFrom50 testQuoteInfo).expirationDate =
        testEnv.now + expirationMs :=
  ⟨by rfl,
    order_expiration_60s testEnv testRequestFrom50 ⟨true, 200, rateBodyMin10⟩
      ⟨true, 200, txBodyOk⟩
      (assembleOrder testEnv testRequestFrom50 testQuoteInfo) (by rfl)⟩

/-- C9: every successfully assembled order's network-fee option is
`high` exactly when the source asset's currency code uppercases to
`BTC`, and `standard` otherwise. -/
theorem order_feeOption_btc (env : Env) (request : SwapRequestP)
    (rateFetch txFetch : FetchResponse) (o : SwapOrderP)
    (h : (getFixedQuote env request rateFetch txFetch).outcome =
      QuoteOutcome.order o) :
    (o.spendInfo.networkFeeOption = "high" ↔
        request.fromCurrencyCode.toUpper = "BTC") ∧
      (request.fromCurrencyCode.toUpper ≠ "BTC" →
        o.spendInfo.networkFeeOption = "standard") := by
  obtain ⟨quoteInfo, rfl⟩ :=
    getFixedQuote_order_shape env request rateFetch txFetch o h
  by_cases hb : request.fromCurrencyCode.toUpper = "BTC" <;>
    simp [assembleOrder, hb]

/-- Witness for C9: the fixture's BTC-sourced order carries the `high`
fee option, and the iff instantiates at the completed run. -/
theorem order_feeOption_btc_witness :
    ((assembleOrder testEnv testRequestFrom50
          testQuoteInfo).spendInfo.networkFeeOption = "high" ↔
        testRequestFrom50.fromCurrencyCode.toUpper = "BTC") ∧
      (testRequestFrom50.fromCurrencyCode.toUpper ≠ "BTC" →
        (assembleOrder testEnv testRequestFrom50
            testQuoteInfo).spendInfo.networkFeeOption = "standard") :=
  order_feeOption_btc testEnv testRequestFrom50 ⟨true, 200, rateBodyMin10⟩
    ⟨true, 200, txBodyOk⟩
    (assembleOrder testEnv testRequestFrom50 testQuoteInfo) (by rfl)

/-- Two `rate` calls answered with bodies that parse to responses with
the same `minAmount` and `withdrawMin` negotiate identically: nothing
after validation reads `fromAmount`, `toAmount` or `message`. -/
lemma getFixedQuote_success_congr (env : Env) (request : SwapRequestP)
    (rateFetch1 rateFetch2 txFetch : FetchResponse) (b1 b2 : JValue)
    (r1 r2 : RateResponse)
    (e1 : callModel rateFetch1 = CallResult.success b1)
    (e2 : callModel rateFetch2 = CallResult.success b2)
    (h1 : asRateResponse b1 = some r1) (h2 : asRateResponse b2 = some r2)
    (hmin : r1.minAmount = r2.minAmount)
    (hwm : r1.withdrawMin = r2.withdrawMin) :
    getFixedQuote env request rateFetch1 txFetch =
      getFixedQuote env request rateFetch2 txFetch := by
  unfold getFixedQuote
  simp only [e1, e2, h1, h2]
  cases request.quoteFor
  · rw [hmin]
  · rw [hwm]

/-- C10: the negotiation outcome depends on a parsed rate response only
through `minAmount` and `withdrawMin` — two runs whose rate bodies
differ only in `fromAmount`, `toAmount` and `message` are identical —
and the final order's native amounts come exclusively from the
`transactions` response's `amount` and `amountTo` fields, via the
owning wallets. -/
theorem rate_fields_noninterference (env : Env) (request : SwapRequestP)
    (ok : Bool) (status : ℕ) (b1 b2 : JValue) (r1 r2 : RateResponse)
    (txFetch : FetchResponse)
    (h1 : asRateResponse b1 = some r1) (h2 : asRateResponse b2 = some r2)
    (hmin : r1.minAmount = r2.minAmount)
    (hwm : r1.withdrawMin = r2.withdrawMin) :
    getFixedQuote env request ⟨ok, status, b1⟩ txFetch =
        getFixedQuote env request ⟨ok, status, b2⟩ txFetch ∧
      ∀ quoteInfo : QuoteInfo,
        (assembleOrder env request quoteInfo).fromNativeAmount =
            env.fromWallet.denominationToNative quoteInfo.amount
              request.fromCurrencyCode ∧
          (assembleOrder env request
                quoteInfo).spendInfo.savedAction.toAsset.nativeAmount =
            env.toWallet.denominationToNative quoteInfo.amountTo
              request.toCurrencyCode := by
  constructor
  · cases ok with
    | true =>
      exact getFixedQuote_success_congr env request _ _ txFetch b1 b2 r1 r2
        rfl rfl h1 h2 hmin hwm
    | false =>
      by_cases hst : status = 422
      · refine getFixedQuote_success_congr env request _ _ txFetch b1 b2 r1 r2
          ?_ ?_ h1 h2 hmin hwm
        · simp [callModel, hst, h1]
        · simp [callModel, hst, h2]
      · have e1 : callModel ⟨false, status, b1⟩ =
            CallResult.httpError status := by
          simp [callModel, hst]
        have e2 : callModel ⟨false, status, b2⟩ =
            CallResult.httpError status := by
          simp [callModel, hst]
        unfold getFixedQuote
        simp only [e1, e2]
  · intro quoteInfo
    exact ⟨rfl, rfl⟩

/-- Witness for C10: a rate body with a null message and one with a
below-minimum message (and different quoted amounts) negotiate to the
same result. -/
theorem rate_fields_noninterference_witness :
    getFixedQuote testEnv testRequestFrom50 ⟨true, 200, rateBodyMin10⟩
        ⟨true, 200, txBodyOk⟩ =
      getFixedQuote testEnv testRequestFrom50 ⟨true, 200, rateBodyMin10Msg⟩
        ⟨true, 200, txBodyOk⟩ :=
  (rate_fields_noninterference testEnv testRequestFrom50 true 200
    rateBodyMin10 rateBodyMin10Msg rateRespMin10
    { minAmount := 10, withdrawMin := 0, fromAmount := 6, toAmount := 94
      message := some "Amount less than min" }
    ⟨true, 200, txBodyOk⟩ (by decide) (by decide) (by decide) (by decide)).1

end Exolix
